import Mathlib

/-!
Verification development for the uhppote-mqtt bridge
(src/src/bin/uhppote-mqtt.rs).

The Rust program is shallowly embedded: payloads are lists of byte
values (Nat), UTF-8 decoding models Rust std str from_utf8, the device
collaborator is an oracle function whose invocations are recorded, and
the MQTT client operations are recorded as action lists.
-/

namespace UhppoteMqtt

/-! ## UTF-8 (model of Rust std str from_utf8 and the UTF-8 encoding) -/

/-- Standard UTF-8 encoding of a single Unicode code point (as used by
Rust str: 1 to 4 bytes). -/
def utf8EncodeChar (c : Nat) : List Nat :=
  if c ≤ 127 then [c]
  else if c ≤ 2047 then [192 + c / 64, 128 + c % 64]
  else if c ≤ 65535 then [224 + c / 4096, 128 + c / 64 % 64, 128 + c % 64]
  else [240 + c / 262144, 128 + c / 4096 % 64, 128 + c / 64 % 64, 128 + c % 64]

/-- UTF-8 encoding of a code-point sequence. -/
def utf8Encode : List Nat → List Nat
  | [] => []
  | c :: cs => utf8EncodeChar c ++ utf8Encode cs

/-- Decode the first UTF-8 scalar value of a byte list, returning the code
point and the remaining bytes.  Follows the strict table of Rust
str from_utf8: overlong forms, surrogates (lead 0xED with second byte
above 0x9F) and values above U+10FFFF (lead above 0xF4) are rejected. -/
def decodeHead : List Nat → Option (Nat × List Nat)
  | [] => none
  | b0 :: t =>
    if b0 ≤ 127 then some (b0, t)
    else if 194 ≤ b0 ∧ b0 ≤ 223 then
      match t with
      | b1 :: r =>
        if 128 ≤ b1 ∧ b1 ≤ 191 then
          some ((b0 - 192) * 64 + (b1 - 128), r)
        else none
      | [] => none
    else if 224 ≤ b0 ∧ b0 ≤ 239 then
      match t with
      | b1 :: b2 :: r =>
        if ((b0 = 224 → 160 ≤ b1) ∧ (b0 = 237 → b1 ≤ 159) ∧ 128 ≤ b1 ∧ b1 ≤ 191)
            ∧ (128 ≤ b2 ∧ b2 ≤ 191) then
          some ((b0 - 224) * 4096 + (b1 - 128) * 64 + (b2 - 128), r)
        else none
      | _ => none
    else if 240 ≤ b0 ∧ b0 ≤ 244 then
      match t with
      | b1 :: b2 :: b3 :: r =>
        if ((b0 = 240 → 144 ≤ b1) ∧ (b0 = 244 → b1 ≤ 143) ∧ 128 ≤ b1 ∧ b1 ≤ 191)
            ∧ (128 ≤ b2 ∧ b2 ≤ 191) ∧ (128 ≤ b3 ∧ b3 ≤ 191) then
          some ((b0 - 240) * 262144 + (b1 - 128) * 4096 + (b2 - 128) * 64 + (b3 - 128), r)
        else none
      | _ => none
    else none

/-- Fuelled decoding loop.  `decodeHead` always consumes at least one
byte, so fuel equal to the length of the input never runs out before
the input is exhausted. -/
def utf8DecodeFuel : Nat → List Nat → Option (List Nat)
  | _, [] => some []
  | 0, _ :: _ => none
  | fuel + 1, b :: t =>
    match decodeHead (b :: t) with
    | none => none
    | some (c, r) => Option.map (fun cs => c :: cs) (utf8DecodeFuel fuel r)

/-- Model of Rust std str from_utf8: the code-point sequence of a byte
list when it is valid UTF-8, `none` otherwise. -/
def utf8Decode (p : List Nat) : Option (List Nat) :=
  utf8DecodeFuel p.length p

/-- Code points of a Lean string literal; used to write the text
constants of the program ("LOCK", "UNLOCK"). -/
def strCps (s : String) : List Nat := s.data.map Char.toNat

/-! ## Device collaborator model (uhppote-rs Device) -/

/-- Door control mode of the device library (uhppote-rs
DoorControlMode); the program uses Controlled and NormallyOpen. -/
inductive DoorControlMode
  | NormallyOpen
  | NormallyClosed
  | Controlled
  deriving DecidableEq

/-- Argument record of set_door_control_state; delay in seconds. -/
structure DoorControl where
  delay : Nat
  mode : DoorControlMode
  deriving DecidableEq

/-- Error reported by a failing device call. -/
structure DeviceError where
  msg : String
  deriving DecidableEq

/-- Behaviour of the device collaborator: the result of
set_door_control_state for a door and a DoorControl argument. -/
def DeviceFun : Type := Nat → DoorControl → Except DeviceError Unit

/-- Errors of one dispatch of handle_payload: a UTF-8 decode failure or
a device-call failure (both leave through the question-mark operator in
the Rust source). -/
inductive BridgeError
  | utf8Error
  | deviceError (e : DeviceError)
  deriving DecidableEq

/-! ## handle_payload (src/src/bin/uhppote-mqtt.rs lines 194-223) -/

/-- Embedding of `handle_payload`.  Returns the Rust result
(`Result<Option<&str>>`) together with the list of device invocations
performed (door and DoorControl argument), so that theorems can speak
about whether and how the device collaborator was called. -/
def handle_payload (dev : DeviceFun) (door : Nat) (payload : List Nat) :
    Except BridgeError (Option String) × List (Nat × DoorControl) :=
  match utf8Decode payload with
  | none => (Except.error BridgeError.utf8Error, [])
  | some s =>
    if s = strCps "LOCK" then
      match dev door ⟨5, DoorControlMode.Controlled⟩ with
      | Except.ok _ =>
        (Except.ok (some "LOCKED"), [(door, ⟨5, DoorControlMode.Controlled⟩)])
      | Except.error e =>
        (Except.error (BridgeError.deviceError e), [(door, ⟨5, DoorControlMode.Controlled⟩)])
    else if s = strCps "UNLOCK" then
      match dev door ⟨5, DoorControlMode.NormallyOpen⟩ with
      | Except.ok _ =>
        (Except.ok (some "UNLOCKED"), [(door, ⟨5, DoorControlMode.NormallyOpen⟩)])
      | Except.error e =>
        (Except.error (BridgeError.deviceError e), [(door, ⟨5, DoorControlMode.NormallyOpen⟩)])
    else (Except.ok none, [])

/-- A device whose calls always succeed (used as a concrete instance). -/
def devOk : DeviceFun := fun _ _ => Except.ok ()

/-- A device whose calls always fail (used as a concrete instance). -/
def devFail : DeviceFun := fun _ _ => Except.error ⟨"unreachable"⟩

/-! ## Topic derivation (src/src/bin/uhppote-mqtt.rs lines 92-98) -/

/-- Topic for device discovery to Home Assistant. -/
def config_topic (base : String) : String := base ++ "/config"

/-- Topic for device state updates to Home Assistant. -/
def state_topic (base : String) : String := base ++ "/state"

/-- Topic for device commands coming from Home Assistant. -/
def command_topic (base : String) : String := base ++ "/command"

/-- The three derived topics. -/
def topicSet (base : String) : List String :=
  [config_topic base, state_topic base, command_topic base]

/-! ## MQTT client actions (rumqttc AsyncClient calls made by main) -/

/-- Quality-of-service levels of the MQTT library. -/
inductive QoS
  | AtMostOnce
  | AtLeastOnce
  | ExactlyOnce
  deriving DecidableEq

/-- One publish performed through the client. -/
structure PubAction where
  topic : String
  qos : QoS
  retained : Bool
  payload : String
  deriving DecidableEq

/-- One client call of the startup sequence. -/
inductive StartAction
  | subscribe (topic : String) (qos : QoS)
  | publish (pa : PubAction)
  deriving DecidableEq

/-- Topic an action touches. -/
def startTopic : StartAction → String
  | StartAction.subscribe t _ => t
  | StartAction.publish pa => pa.topic

/-- Discovery payload string built by main (lines 159-162):
a flat JSON object with the command topic, the state topic and the
configured display name. -/
def discoveryPayload (cmdT stT nm : String) : String :=
  "\x7b\"command_topic\": \"" ++ cmdT ++ "\", \"state_topic\": \"" ++ stT
    ++ "\", \"name\": \"" ++ nm ++ "\" \x7d"

/-- Startup sequence of main (lines 152-168): subscribe to the command
topic at QoS AtMostOnce, then publish the discovery payload retained at
QoS AtLeastOnce to the config topic.  `subRes` and `pubRes` are the
outcomes the broker gives the two calls.  Each call is unwrapped in the
source, so a failure aborts startup: the returned Bool is true exactly
when startup completed, and the action list records the calls that were
attempted (a failed subscribe means the publish is never attempted). -/
def startup (subRes pubRes : Except String Unit) (cmdT stT cfgT nm : String) :
    List StartAction × Bool :=
  match subRes with
  | Except.error _ => ([StartAction.subscribe cmdT QoS.AtMostOnce], false)
  | Except.ok _ =>
    match pubRes with
    | Except.error _ =>
      ([StartAction.subscribe cmdT QoS.AtMostOnce,
        StartAction.publish ⟨cfgT, QoS.AtLeastOnce, true, discoveryPayload cmdT stT nm⟩],
       false)
    | Except.ok _ =>
      ([StartAction.subscribe cmdT QoS.AtMostOnce,
        StartAction.publish ⟨cfgT, QoS.AtLeastOnce, true, discoveryPayload cmdT stT nm⟩],
       true)

/-! ## Receive loop (src/src/bin/uhppote-mqtt.rs lines 170-191) -/

/-- An event returned by one poll of the MQTT event loop:
an incoming publish packet, or any other event kind (other incoming
packets, outgoing packets, pings), all of which the loop ignores. -/
inductive Event
  | incomingPublish (topic : String) (payload : List Nat)
  | other

/-- One iteration of the receive loop.  On Ok(Incoming(Publish(p))) the
payload is handed to handle_payload (note: the source never inspects
p.topic); a resulting state label is published to the state topic, not
retained, at QoS AtLeastOnce; Ok(None) does nothing; an error is
reported; a poll error is printed; other events are ignored.  Returns
the publishes performed and the device invocations made. -/
def loopStep (dev : DeviceFun) (door : Nat) (stT : String) (ev : Except String Event) :
    List PubAction × List (Nat × DoorControl) :=
  match ev with
  | Except.ok (Event.incomingPublish _ payload) =>
    match handle_payload dev door payload with
    | (Except.ok (some state), calls) => ([⟨stT, QoS.AtLeastOnce, false, state⟩], calls)
    | (Except.ok none, calls) => ([], calls)
    | (Except.error _, calls) => ([], calls)
  | Except.ok Event.other => ([], [])
  | Except.error _ => ([], [])

/-- The receive loop over a finite prefix of the event stream,
accumulating the publishes and device invocations of every iteration. -/
def runLoop (dev : DeviceFun) (door : Nat) (stT : String) :
    List (Except String Event) → List PubAction × List (Nat × DoorControl)
  | [] => ([], [])
  | ev :: evs =>
    ((loopStep dev door stT ev).1 ++ (runLoop dev door stT evs).1,
     (loopStep dev door stT ev).2 ++ (runLoop dev door stT evs).2)

/-! ## JSON values and serde-style field access -/

/-- JSON values, as far as the two deserialized records need them. -/
inductive Json
  | jstr (s : String)
  | jnum (n : Int)
  | jbool (b : Bool)
  | jnull
  deriving DecidableEq

/-- A JSON object, as an association list of fields. -/
abbrev JsonObj : Type := List (String × Json)

/-- First value of a field, if present (serde ignores unknown fields,
so an object may hold fields no lookup ever asks for). -/
def getField (obj : JsonObj) (k : String) : Option Json :=
  Option.map Prod.snd (List.find? (fun kv => kv.1 = k) obj)

/-- A required string field (missing field or wrong type is a
deserialization error). -/
def getStr (obj : JsonObj) (k : String) : Option String :=
  match getField obj k with
  | some (Json.jstr s) => some s
  | _ => none

/-- A required boolean field. -/
def getBool (obj : JsonObj) (k : String) : Option Bool :=
  match getField obj k with
  | some (Json.jbool b) => some b
  | _ => none

/-- A required unsigned integer field below `bound` (serde rejects
out-of-range numbers for the fixed-width integer types). -/
def getUInt (obj : JsonObj) (k : String) (bound : Nat) : Option Nat :=
  match getField obj k with
  | some (Json.jnum n) => if 0 ≤ n ∧ n < (bound : Int) then some n.toNat else none
  | _ => none

/-- An optional string field: missing or null is None, a string is
Some, any other type is a deserialization error. -/
def getOptStr (obj : JsonObj) (k : String) : Option (Option String) :=
  match getField obj k with
  | none => some none
  | some Json.jnull => some none
  | some (Json.jstr s) => some (some s)
  | some _ => none

/-- An optional unsigned integer field below `bound`. -/
def getOptUInt (obj : JsonObj) (k : String) (bound : Nat) : Option (Option Nat) :=
  match getField obj k with
  | none => some none
  | some Json.jnull => some none
  | some (Json.jnum n) => if 0 ≤ n ∧ n < (bound : Int) then some (some n.toNat) else none
  | some _ => none

/-! ## Configuration (src/src/bin/uhppote-mqtt.rs lines 37-49) -/

/-- The Config struct: machine integers become Nat (u32 and u8 ranges
are enforced at deserialization). -/
structure Config where
  uhppote_device_id : Nat
  uhppote_device_ip : String
  name : String
  door : Nat
  mqtt_id : String
  mqtt_host : Option String
  mqtt_port : Option Nat
  mqtt_username : Option String
  mqtt_password : Option String
  base_topic : String
  deriving DecidableEq

/-- serde_json deserialization of Config: every non-Option field is
required; Option fields default to None when missing; unknown fields
are ignored. -/
def deserializeConfig (obj : JsonObj) : Option Config := do
  let did ← getUInt obj "uhppote_device_id" 4294967296
  let dip ← getStr obj "uhppote_device_ip"
  let nm ← getStr obj "name"
  let door ← getUInt obj "door" 256
  let mid ← getStr obj "mqtt_id"
  let mh ← getOptStr obj "mqtt_host"
  let mp ← getOptUInt obj "mqtt_port" 65536
  let mu ← getOptStr obj "mqtt_username"
  let mpw ← getOptStr obj "mqtt_password"
  let bt ← getStr obj "base_topic"
  pure ⟨did, dip, nm, door, mid, mh, mp, mu, mpw, bt⟩

/-- How main addresses the device (lines 106-109): device identifier
and the network address handed to get_device; None would mean broadcast
discovery.  The source always passes Some of the parsed configured
address. -/
structure DeviceSpec where
  device_id : Nat
  address : Option String

/-- Device construction in main: get_device(id, Some(ip)). -/
def mkDevice (c : Config) : DeviceSpec :=
  ⟨c.uhppote_device_id, some c.uhppote_device_ip⟩

/-! ## Supervisor credential resolution (lines 59-68 and 112-137) -/

/-- The MqttConfig struct the supervisor response is deserialized into.
All seven fields are required by the derived deserializer. -/
structure MqttConfig where
  addon : String
  host : String
  port : String
  ssl : Bool
  username : String
  password : String
  protocol : String
  deriving DecidableEq

/-- serde_json deserialization of MqttConfig: all seven fields required
with their declared types, unknown fields ignored. -/
def deserializeMqttConfig (obj : JsonObj) : Option MqttConfig := do
  let a ← getStr obj "addon"
  let h ← getStr obj "host"
  let p ← getStr obj "port"
  let sl ← getBool obj "ssl"
  let u ← getStr obj "username"
  let pw ← getStr obj "password"
  let pr ← getStr obj "protocol"
  pure ⟨a, h, p, sl, u, pw, pr⟩

/-- Digit accumulator for decimal parsing. -/
def parseDecDigits : List Char → Nat → Option Nat
  | [], acc => some acc
  | c :: cs, acc =>
    if 48 ≤ c.toNat ∧ c.toNat ≤ 57 then
      parseDecDigits cs (acc * 10 + (c.toNat - 48))
    else none

/-- Model of Rust str parse into u16: an optional leading plus sign,
then one or more decimal digits, value at most 65535. -/
def parseU16 (s : String) : Option Nat :=
  let cs := match s.data with
    | '+' :: rest => rest
    | cs => cs
  match cs with
  | [] => none
  | _ =>
    match parseDecDigits cs 0 with
    | none => none
    | some n => if n ≤ 65535 then some n else none

/-- An HTTP response from the supervisor endpoint: numeric status code
and JSON body. -/
structure HttpResponse where
  status : Nat
  body : JsonObj

/-- Failure of supervisor credential resolution (each aborts startup:
bail or the question-mark operator in main). -/
inductive ResolutionError
  | httpStatus (code : Nat)
  | jsonError
  | portParseError
  deriving DecidableEq

/-- The match on response.status() in main (lines 124-136): only
StatusCode OK (200) takes the success arm; every other status bails
with the status code.  On 200 the body is deserialized as MqttConfig
and the port string must parse as u16; the four broker parameters are
then stored into the config. -/
def resolveSupervisor (resp : HttpResponse) :
    Except ResolutionError (String × Nat × String × String) :=
  if resp.status = 200 then
    match deserializeMqttConfig resp.body with
    | none => Except.error ResolutionError.jsonError
    | some j =>
      match parseU16 j.port with
      | none => Except.error ResolutionError.portParseError
      | some p => Except.ok (j.host, p, j.username, j.password)
  else Except.error (ResolutionError.httpStatus resp.status)

/-- A step the credential phase takes against the supervisor API. -/
inductive FetchStep
  | httpGet (url : String) (authHeader : String)

/-- Outcome of the credential phase of main (lines 112-137). -/
inductive CredOutcome
  | panicked
  | fatal (e : ResolutionError)
  | ok (creds : Option (String × Nat × String × String))
  deriving DecidableEq

/-- The credential phase of main: when HASS_TOKEN is set in the
environment, the bearer token is read with
std env var("SUPERVISOR_TOKEN").unwrap() while the Authorization header
is built - a missing SUPERVISOR_TOKEN therefore panics before the GET
is sent - then the GET is issued and the response resolved.  When
HASS_TOKEN is unset the phase does nothing (static credentials are used
later).  Returns the HTTP requests performed and the outcome. -/
def credentialPhase (env : String → Option String) (resp : HttpResponse) :
    List FetchStep × CredOutcome :=
  match env "HASS_TOKEN" with
  | none => ([], CredOutcome.ok none)
  | some _ =>
    match env "SUPERVISOR_TOKEN" with
    | none => ([], CredOutcome.panicked)
    | some tok =>
      ([FetchStep.httpGet "http://supervisor/services/mqtt" ("Bearer " ++ tok)],
       match resolveSupervisor resp with
       | Except.error e => CredOutcome.fatal e
       | Except.ok c => CredOutcome.ok (some c))

/-- Whether a resolution outcome is a success. -/
def resolutionOk : Except ResolutionError (String × Nat × String × String) → Bool
  | Except.ok _ => true
  | Except.error _ => false

/-! ## Concrete instances used by witnesses and counterexamples -/

/-- A supervisor body with all seven MqttConfig fields but a port value
outside the u16 range. -/
def badPortBody : JsonObj :=
  [("addon", Json.jstr "a"), ("host", Json.jstr "h"), ("port", Json.jstr "99999"),
   ("ssl", Json.jbool false), ("username", Json.jstr "u"), ("password", Json.jstr "p"),
   ("protocol", Json.jstr "3")]

/-- A supervisor body holding exactly the four fields host, port,
username and password. -/
def fourFieldBody : JsonObj :=
  [("host", Json.jstr "h"), ("port", Json.jstr "1883"),
   ("username", Json.jstr "u"), ("password", Json.jstr "p")]

/-- A complete supervisor body, with one extra unknown field. -/
def supervisorBody : JsonObj :=
  [("addon", Json.jstr "core_mosquitto"), ("host", Json.jstr "172.30.32.1"),
   ("port", Json.jstr "1883"), ("ssl", Json.jbool false),
   ("username", Json.jstr "hass"), ("password", Json.jstr "secret"),
   ("protocol", Json.jstr "3.1.1"), ("extra_field", Json.jstr "ignored")]

/-- A configuration object with every field except uhppote_device_ip. -/
def cfgObjNoIp : JsonObj :=
  [("uhppote_device_id", Json.jnum 425043852), ("name", Json.jstr "Office Door"),
   ("door", Json.jnum 1), ("mqtt_id", Json.jstr "uhppote"),
   ("mqtt_host", Json.jstr "localhost"), ("mqtt_port", Json.jnum 1883),
   ("mqtt_username", Json.jstr "user"), ("mqtt_password", Json.jstr "pass"),
   ("base_topic", Json.jstr "uhppote")]

/-- The same configuration object with uhppote_device_ip added. -/
def cfgObjFull : JsonObj :=
  cfgObjNoIp ++ [("uhppote_device_ip", Json.jstr "192.168.1.50")]

/-- An environment where HASS_TOKEN is set but SUPERVISOR_TOKEN is not. -/
def envHassOnly : String → Option String :=
  fun k => if k = "HASS_TOKEN" then some "1" else none

/-! ## Theorems -/

/-- Decoding one UTF-8 head is inverted by the encoder: the code point
re-encodes to exactly the bytes consumed.  This holds because the
decoder rejects overlong forms. -/

theorem decodeHead_encode : ∀ (p : List Nat) (c : Nat) (r : List Nat),
    decodeHead p = some (c, r) → utf8EncodeChar c ++ r = p := by
  intro p c r h
  cases p with
  | nil => simp [decodeHead] at h
  | cons b0 t =>
    by_cases h1 : b0 ≤ 127
    · simp only [decodeHead, if_pos h1, Option.some.injEq, Prod.mk.injEq] at h
      obtain ⟨rfl, rfl⟩ := h
      unfold utf8EncodeChar
      rw [if_pos h1]
      rfl
    · by_cases h2 : 194 ≤ b0 ∧ b0 ≤ 223
      · cases t with
        | nil => simp [decodeHead, if_neg h1, if_pos h2] at h
        | cons b1 r1 =>
          by_cases h3 : 128 ≤ b1 ∧ b1 ≤ 191
          · simp only [decodeHead, if_neg h1, if_pos h2, if_pos h3,
              Option.some.injEq, Prod.mk.injEq] at h
            obtain ⟨rfl, rfl⟩ := h
            have e : utf8EncodeChar ((b0 - 192) * 64 + (b1 - 128)) = [b0, b1] := by
              unfold utf8EncodeChar
              rw [if_neg (by omega), if_pos (by omega)]
              simp only [List.cons.injEq, and_true]
              omega
            rw [e]
            rfl
          · simp [decodeHead, if_neg h1, if_pos h2, if_neg h3] at h
      · by_cases h4 : 224 ≤ b0 ∧ b0 ≤ 239
        · match t with
          | [] => simp [decodeHead, if_neg h1, if_neg h2, if_pos h4] at h
          | [b1] => simp [decodeHead, if_neg h1, if_neg h2, if_pos h4] at h
          | b1 :: b2 :: r2 =>
            by_cases h5 : ((b0 = 224 → 160 ≤ b1) ∧ (b0 = 237 → b1 ≤ 159) ∧ 128 ≤ b1 ∧ b1 ≤ 191)
                ∧ (128 ≤ b2 ∧ b2 ≤ 191)
            · simp only [decodeHead, if_neg h1, if_neg h2, if_pos h4, if_pos h5,
                Option.some.injEq, Prod.mk.injEq] at h
              obtain ⟨rfl, rfl⟩ := h
              have e : utf8EncodeChar ((b0 - 224) * 4096 + (b1 - 128) * 64 + (b2 - 128))
                  = [b0, b1, b2] := by
                unfold utf8EncodeChar
                rw [if_neg (by omega), if_neg (by omega), if_pos (by omega)]
                simp only [List.cons.injEq, and_true]
                omega
              rw [e]
              rfl
            · simp [decodeHead, if_neg h1, if_neg h2, if_pos h4, if_neg h5] at h
        · by_cases h6 : 240 ≤ b0 ∧ b0 ≤ 244
          · match t with
            | [] => simp [decodeHead, if_neg h1, if_neg h2, if_neg h4, if_pos h6] at h
            | [b1] => simp [decodeHead, if_neg h1, if_neg h2, if_neg h4, if_pos h6] at h
            | [b1, b2] => simp [decodeHead, if_neg h1, if_neg h2, if_neg h4, if_pos h6] at h
            | b1 :: b2 :: b3 :: r3 =>
              by_cases h7 : ((b0 = 240 → 144 ≤ b1) ∧ (b0 = 244 → b1 ≤ 143) ∧ 128 ≤ b1 ∧ b1 ≤ 191)
                  ∧ (128 ≤ b2 ∧ b2 ≤ 191) ∧ (128 ≤ b3 ∧ b3 ≤ 191)
              · simp only [decodeHead, if_neg h1, if_neg h2, if_neg h4, if_pos h6, if_pos h7,
                  Option.some.injEq, Prod.mk.injEq] at h
                obtain ⟨rfl, rfl⟩ := h
                have e : utf8EncodeChar
                    ((b0 - 240) * 262144 + (b1 - 128) * 4096 + (b2 - 128) * 64 + (b3 - 128))
                    = [b0, b1, b2, b3] := by
                  unfold utf8EncodeChar
                  rw [if_neg (by omega), if_neg (by omega), if_neg (by omega)]
                  simp only [List.cons.injEq, and_true]
                  omega
                rw [e]
                rfl
              · simp [decodeHead, if_neg h1, if_neg h2, if_neg h4, if_pos h6, if_neg h7] at h
          · simp [decodeHead, if_neg h1, if_neg h2, if_neg h4, if_neg h6] at h

/-- The fuelled decoder is inverted by the encoder. -/
theorem utf8DecodeFuel_encode : ∀ (fuel : Nat) (p cs : List Nat),
    utf8DecodeFuel fuel p = some cs → utf8Encode cs = p := by
  intro fuel
  induction fuel with
  | zero =>
    intro p cs h
    cases p with
    | nil =>
      simp only [utf8DecodeFuel, Option.some.injEq] at h
      rw [← h]
      rfl
    | cons b t => simp [utf8DecodeFuel] at h
  | succ n ih =>
    intro p cs h
    cases p with
    | nil =>
      simp only [utf8DecodeFuel, Option.some.injEq] at h
      rw [← h]
      rfl
    | cons b t =>
      simp only [utf8DecodeFuel] at h
      cases hd : decodeHead (b :: t) with
      | none =>
        simp only [hd] at h
        exact Option.noConfusion h
      | some cr =>
        obtain ⟨c, r⟩ := cr
        simp only [hd] at h
        cases hrec : utf8DecodeFuel n r with
        | none =>
          simp only [hrec, Option.map_none'] at h
          exact Option.noConfusion h
        | some cs2 =>
          simp only [hrec, Option.map_some', Option.some.injEq] at h
          rw [← h]
          show utf8EncodeChar c ++ utf8Encode cs2 = b :: t
          rw [ih r cs2 hrec]
          exact decodeHead_encode (b :: t) c r hd

/-- Any byte list that decodes as UTF-8 is the encoding of its
decoding: valid UTF-8 representations are unique. -/
theorem utf8Decode_encode (p cs : List Nat) (h : utf8Decode p = some cs) :
    utf8Encode cs = p :=
  utf8DecodeFuel_encode p.length p cs h



/-- handle_payload on the UTF-8 bytes of "LOCK" reaches the device call
with mode Controlled and delay 5 seconds. -/
theorem handle_payload_lock (dev : DeviceFun) (door : Nat) :
    handle_payload dev door (utf8Encode (strCps "LOCK"))
      = (match dev door ⟨5, DoorControlMode.Controlled⟩ with
         | Except.ok _ =>
           (Except.ok (some "LOCKED"), [(door, ⟨5, DoorControlMode.Controlled⟩)])
         | Except.error e =>
           (Except.error (BridgeError.deviceError e),
            [(door, ⟨5, DoorControlMode.Controlled⟩)])) :=
  rfl

/-- handle_payload on the UTF-8 bytes of "UNLOCK" reaches the device
call with mode NormallyOpen and delay 5 seconds. -/
theorem handle_payload_unlock (dev : DeviceFun) (door : Nat) :
    handle_payload dev door (utf8Encode (strCps "UNLOCK"))
      = (match dev door ⟨5, DoorControlMode.NormallyOpen⟩ with
         | Except.ok _ =>
           (Except.ok (some "UNLOCKED"), [(door, ⟨5, DoorControlMode.NormallyOpen⟩)])
         | Except.error e =>
           (Except.error (BridgeError.deviceError e),
            [(door, ⟨5, DoorControlMode.NormallyOpen⟩)])) :=
  rfl

/-- C1: translate(door, "LOCK") invokes the device collaborator with
mode Controlled and delay 5 seconds for that door and returns the label
"LOCKED" iff the device call succeeds; translate(door, "UNLOCK") is the
mirror with mode NormallyOpen and label "UNLOCKED"; a failing device
call yields an Error carrying the underlying cause and no label. -/
theorem C1_translate_lock_unlock (dev : DeviceFun) (door : Nat) :
    ((handle_payload dev door (utf8Encode (strCps "LOCK"))).2
        = [(door, ⟨5, DoorControlMode.Controlled⟩)]
      ∧ ((handle_payload dev door (utf8Encode (strCps "LOCK"))).1 = Except.ok (some "LOCKED")
          ↔ dev door ⟨5, DoorControlMode.Controlled⟩ = Except.ok ())
      ∧ (∀ e, dev door ⟨5, DoorControlMode.Controlled⟩ = Except.error e →
          (handle_payload dev door (utf8Encode (strCps "LOCK"))).1
            = Except.error (BridgeError.deviceError e)))
    ∧ ((handle_payload dev door (utf8Encode (strCps "UNLOCK"))).2
        = [(door, ⟨5, DoorControlMode.NormallyOpen⟩)]
      ∧ ((handle_payload dev door (utf8Encode (strCps "UNLOCK"))).1 = Except.ok (some "UNLOCKED")
          ↔ dev door ⟨5, DoorControlMode.NormallyOpen⟩ = Except.ok ())
      ∧ (∀ e, dev door ⟨5, DoorControlMode.NormallyOpen⟩ = Except.error e →
          (handle_payload dev door (utf8Encode (strCps "UNLOCK"))).1
            = Except.error (BridgeError.deviceError e))) := by
  constructor
  · rw [handle_payload_lock]
    cases h : dev door ⟨5, DoorControlMode.Controlled⟩ with
    | ok u => cases u; simp
    | error e => simp
  · rw [handle_payload_unlock]
    cases h : dev door ⟨5, DoorControlMode.NormallyOpen⟩ with
    | ok u => cases u; simp
    | error e => simp

/-- C1 witness: door 3, always-succeeding device, LOCK payload: one
Controlled/5s device call and the label LOCKED. -/
theorem C1_witness :
    (handle_payload devOk 3 (utf8Encode (strCps "LOCK"))).2
        = [(3, ⟨5, DoorControlMode.Controlled⟩)]
      ∧ (handle_payload devOk 3 (utf8Encode (strCps "LOCK"))).1 = Except.ok (some "LOCKED") :=
  ⟨(C1_translate_lock_unlock devOk 3).1.1,
   ((C1_translate_lock_unlock devOk 3).1.2.1).mpr rfl⟩

/-- C2: a payload that is not the UTF-8 encoding of "LOCK" nor of
"UNLOCK" never invokes the device collaborator; it yields Ignored
(Ok None) when it is valid UTF-8 and a decode Error otherwise. -/
theorem C2_unknown_payload (dev : DeviceFun) (door : Nat) (p : List Nat)
    (hL : p ≠ utf8Encode (strCps "LOCK")) (hU : p ≠ utf8Encode (strCps "UNLOCK")) :
    (handle_payload dev door p).2 = []
    ∧ (utf8Decode p = none →
        (handle_payload dev door p).1 = Except.error BridgeError.utf8Error)
    ∧ (∀ s, utf8Decode p = some s → (handle_payload dev door p).1 = Except.ok none) := by
  cases h : utf8Decode p with
  | none =>
    refine ⟨by simp [handle_payload, h], fun _ => by simp [handle_payload, h],
      fun s hs => Option.noConfusion hs⟩
  | some s =>
    have hsL : s ≠ strCps "LOCK" := by
      intro heq
      exact hL (by rw [← utf8Decode_encode p s h, heq])
    have hsU : s ≠ strCps "UNLOCK" := by
      intro heq
      exact hU (by rw [← utf8Decode_encode p s h, heq])
    refine ⟨by simp [handle_payload, h, hsL, hsU], fun hn => Option.noConfusion hn,
      fun s2 hs2 => by simp [handle_payload, h, hsL, hsU]⟩

/-- C2 witness: the lowercase payload "lock" is ignored and the device
is not invoked. -/
theorem C2_witness :
    (handle_payload devOk 1 [108, 111, 99, 107]).2 = []
    ∧ (handle_payload devOk 1 [108, 111, 99, 107]).1 = Except.ok none :=
  ⟨(C2_unknown_payload devOk 1 [108, 111, 99, 107] (by decide) (by decide)).1,
   (C2_unknown_payload devOk 1 [108, 111, 99, 107] (by decide) (by decide)).2.2
     (strCps "lock") rfl⟩



/-- A successful LOCK dispatch in the loop publishes exactly the label
LOCKED to the state topic, not retained, at QoS AtLeastOnce, whatever
the topic of the inbound publish is. -/
theorem loopStep_lock (dev : DeviceFun) (door : Nat) (stT t : String)
    (hdev : dev door ⟨5, DoorControlMode.Controlled⟩ = Except.ok ()) :
    loopStep dev door stT (Except.ok (Event.incomingPublish t (utf8Encode (strCps "LOCK"))))
      = ([⟨stT, QoS.AtLeastOnce, false, "LOCKED"⟩],
         [(door, ⟨5, DoorControlMode.Controlled⟩)]) := by
  simp only [loopStep, handle_payload_lock, hdev]

/-- C3: each inbound publish of "LOCK" for which the device call
succeeds results in exactly one publish of "LOCKED" to the state topic,
retained false, at QoS AtLeastOnce; n identical "LOCK" messages give n
independent device calls and n state publishes, with no deduplication. -/
theorem C3_lock_state_publishes (dev : DeviceFun) (door : Nat) (base : String) (n : Nat)
    (hdev : dev door ⟨5, DoorControlMode.Controlled⟩ = Except.ok ()) :
    runLoop dev door (state_topic base)
        (List.replicate n (Except.ok (Event.incomingPublish (command_topic base)
          (utf8Encode (strCps "LOCK")))))
      = (List.replicate n ⟨state_topic base, QoS.AtLeastOnce, false, "LOCKED"⟩,
         List.replicate n (door, ⟨5, DoorControlMode.Controlled⟩)) := by
  induction n with
  | zero => rfl
  | succ k ih =>
    simp [List.replicate_succ, runLoop, ih,
      loopStep_lock dev door (state_topic base) (command_topic base) hdev]

/-- C3 witness: two identical LOCK publishes at door 1 with an
always-succeeding device give two state publishes and two device
calls. -/
theorem C3_witness :
    runLoop devOk 1 (state_topic "uhppote")
        (List.replicate 2 (Except.ok (Event.incomingPublish (command_topic "uhppote")
          (utf8Encode (strCps "LOCK")))))
      = (List.replicate 2 ⟨state_topic "uhppote", QoS.AtLeastOnce, false, "LOCKED"⟩,
         List.replicate 2 (1, ⟨5, DoorControlMode.Controlled⟩)) :=
  C3_lock_state_publishes devOk 1 "uhppote" 2 rfl

/-- C4 counterexample: an inbound publish whose topic is not the
command topic is still dispatched to the translator - the device is
invoked and the state label published - so payloads are not passed only
for the command topic. -/
theorem C4_counterexample :
    "kitchen/lights" ≠ command_topic "uhppote"
    ∧ loopStep devOk 1 (state_topic "uhppote")
        (Except.ok (Event.incomingPublish "kitchen/lights" (utf8Encode (strCps "LOCK"))))
      = ([⟨state_topic "uhppote", QoS.AtLeastOnce, false, "LOCKED"⟩],
         [(1, ⟨5, DoorControlMode.Controlled⟩)]) :=
  ⟨by decide, rfl⟩

/-- C4 amended: in the receive loop every inbound publish event has its
raw payload passed to the Command Translator together with the
configured door index, regardless of the event topic - the loop never
compares the topic with the command topic. -/
theorem C4_amended_dispatch_any_topic (dev : DeviceFun) (door : Nat) (stT t : String)
    (payload : List Nat) :
    loopStep dev door stT (Except.ok (Event.incomingPublish t payload))
      = ((match (handle_payload dev door payload).1 with
          | Except.ok (some state) => [⟨stT, QoS.AtLeastOnce, false, state⟩]
          | Except.ok none => []
          | Except.error _ => []),
         (handle_payload dev door payload).2) := by
  rcases hp : handle_payload dev door payload with ⟨r, calls⟩
  cases r with
  | ok o =>
    cases o with
    | none => simp [loopStep, hp]
    | some state => simp [loopStep, hp]
  | error e => simp [loopStep, hp]

/-- C5: startup subscribes to the command topic at QoS AtMostOnce
first; only when the subscription succeeded is the discovery payload -
holding the command topic, the state topic and the display name -
published retained at QoS AtLeastOnce to the config topic; startup
completes iff both calls succeed. -/
theorem C5_startup_sequence (subRes pubRes : Except String Unit) (cmdT stT cfgT nm : String) :
    (startup subRes pubRes cmdT stT cfgT nm).1.head?
        = some (StartAction.subscribe cmdT QoS.AtMostOnce)
    ∧ (subRes = Except.ok () →
        (startup subRes pubRes cmdT stT cfgT nm).1
          = [StartAction.subscribe cmdT QoS.AtMostOnce,
             StartAction.publish ⟨cfgT, QoS.AtLeastOnce, true, discoveryPayload cmdT stT nm⟩])
    ∧ (∀ e, subRes = Except.error e →
        (startup subRes pubRes cmdT stT cfgT nm).1
          = [StartAction.subscribe cmdT QoS.AtMostOnce])
    ∧ ((startup subRes pubRes cmdT stT cfgT nm).2 = true
        ↔ subRes = Except.ok () ∧ pubRes = Except.ok ()) := by
  cases subRes with
  | ok u =>
    cases u
    cases pubRes with
    | ok v => cases v; simp [startup]
    | error e => simp [startup]
  | error e =>
    cases pubRes with
    | ok v => simp [startup]
    | error e2 => simp [startup]

/-- C5 witness: with both broker calls succeeding, startup performs the
subscribe then the retained discovery publish and completes. -/
theorem C5_witness :
    (startup (Except.ok ()) (Except.ok ())
        "uhppote/command" "uhppote/state" "uhppote/config" "door").1
      = [StartAction.subscribe "uhppote/command" QoS.AtMostOnce,
         StartAction.publish ⟨"uhppote/config", QoS.AtLeastOnce, true,
           discoveryPayload "uhppote/command" "uhppote/state" "door"⟩]
    ∧ (startup (Except.ok ()) (Except.ok ())
        "uhppote/command" "uhppote/state" "uhppote/config" "door").2 = true :=
  ⟨(C5_startup_sequence (Except.ok ()) (Except.ok ())
      "uhppote/command" "uhppote/state" "uhppote/config" "door").2.1 rfl,
   ((C5_startup_sequence (Except.ok ()) (Except.ok ())
      "uhppote/command" "uhppote/state" "uhppote/config" "door").2.2.2).mpr ⟨rfl, rfl⟩⟩



/-- Every publish the loop performs goes to the state topic it was
given. -/
theorem loopStep_topic (dev : DeviceFun) (door : Nat) (stT : String)
    (ev : Except String Event) :
    ∀ pa ∈ (loopStep dev door stT ev).1, pa.topic = stT := by
  intro pa hpa
  cases ev with
  | error e => simp [loopStep] at hpa
  | ok evt =>
    cases evt with
    | other => simp [loopStep] at hpa
    | incomingPublish t payload =>
      rcases hp : handle_payload dev door payload with ⟨r, calls⟩
      cases r with
      | ok o =>
        cases o with
        | none => simp [loopStep, hp] at hpa
        | some s =>
          simp [loopStep, hp] at hpa
          rw [hpa]
      | error e => simp [loopStep, hp] at hpa

/-- Every publish the whole receive loop performs goes to the state
topic it was given. -/
theorem runLoop_topic (dev : DeviceFun) (door : Nat) (stT : String) :
    ∀ (events : List (Except String Event)) (pa : PubAction),
      pa ∈ (runLoop dev door stT events).1 → pa.topic = stT := by
  intro events
  induction events with
  | nil => intro pa hpa; simp [runLoop] at hpa
  | cons ev evs ih =>
    intro pa hpa
    simp only [runLoop, List.mem_append] at hpa
    cases hpa with
    | inl h => exact loopStep_topic dev door stT ev pa h
    | inr h => exact ih pa h

/-- C6: for a non-empty base topic the derivation yields exactly the
three pairwise distinct strings base+"/config", base+"/state" and
base+"/command", and every topic the program subscribes to or publishes
to - in the startup sequence and in the receive loop - lies in this
set. -/
theorem C6_topic_derivation (base : String) (_hb : base ≠ "") :
    (config_topic base = base ++ "/config"
      ∧ state_topic base = base ++ "/state"
      ∧ command_topic base = base ++ "/command")
    ∧ (config_topic base ≠ state_topic base
      ∧ config_topic base ≠ command_topic base
      ∧ state_topic base ≠ command_topic base)
    ∧ (∀ subRes pubRes nm a,
        a ∈ (startup subRes pubRes (command_topic base) (state_topic base)
              (config_topic base) nm).1 →
        startTopic a ∈ topicSet base)
    ∧ (∀ (dev : DeviceFun) (door : Nat) (events : List (Except String Event))
        (pa : PubAction),
        pa ∈ (runLoop dev door (state_topic base) events).1 → pa.topic ∈ topicSet base) := by
  refine ⟨⟨rfl, rfl, rfl⟩, ⟨?_, ?_, ?_⟩, ?_, ?_⟩
  · intro h
    have h2 := congrArg String.length h
    simp only [config_topic, state_topic, String.length_append] at h2
    have e1 : ("/config" : String).length = 7 := rfl
    have e2 : ("/state" : String).length = 6 := rfl
    omega
  · intro h
    have h2 := congrArg String.length h
    simp only [config_topic, command_topic, String.length_append] at h2
    have e1 : ("/config" : String).length = 7 := rfl
    have e2 : ("/command" : String).length = 8 := rfl
    omega
  · intro h
    have h2 := congrArg String.length h
    simp only [state_topic, command_topic, String.length_append] at h2
    have e1 : ("/state" : String).length = 6 := rfl
    have e2 : ("/command" : String).length = 8 := rfl
    omega
  · intro subRes pubRes nm a ha
    cases subRes with
    | error e =>
      simp only [startup, List.mem_singleton] at ha
      rw [ha]
      simp [startTopic, topicSet]
    | ok u =>
      cases pubRes with
      | ok v =>
        simp only [startup, List.mem_cons, List.not_mem_nil, or_false] at ha
        cases ha with
        | inl h => rw [h]; simp [startTopic, topicSet]
        | inr h => rw [h]; simp [startTopic, topicSet]
      | error e =>
        simp only [startup, List.mem_cons, List.not_mem_nil, or_false] at ha
        cases ha with
        | inl h => rw [h]; simp [startTopic, topicSet]
        | inr h => rw [h]; simp [startTopic, topicSet]
  · intro dev door events pa hpa
    rw [runLoop_topic dev door (state_topic base) events pa hpa]
    simp [topicSet]

/-- C6 witness: at base topic "uhppote" the config and state topics
differ. -/
theorem C6_witness : config_topic "uhppote" ≠ state_topic "uhppote" :=
  (C6_topic_derivation "uhppote" (by decide)).2.1.1



/-- C7: a supervisor response with a non-success HTTP status makes
resolution fail with an error carrying that status code, and a success
response whose port field does not parse as an unsigned 16-bit integer
also makes resolution fail; in both cases the bridge does not start. -/
theorem C7_supervisor_failures (resp : HttpResponse) :
    (¬(200 ≤ resp.status ∧ resp.status ≤ 299) →
      resolveSupervisor resp = Except.error (ResolutionError.httpStatus resp.status))
    ∧ (∀ j, deserializeMqttConfig resp.body = some j → parseU16 j.port = none →
        resolutionOk (resolveSupervisor resp) = false) := by
  constructor
  · intro hns
    have hne : ¬resp.status = 200 := by omega
    simp [resolveSupervisor, hne]
  · intro j hj hp
    by_cases hs : resp.status = 200
    · simp [resolveSupervisor, hs, hj, hp, resolutionOk]
    · simp [resolveSupervisor, hs, resolutionOk]

/-- C7 witness: status 404 fails carrying 404; a 200 response whose
port field is "99999" fails resolution. -/
theorem C7_witness :
    resolveSupervisor ⟨404, []⟩ = Except.error (ResolutionError.httpStatus 404)
    ∧ resolutionOk (resolveSupervisor ⟨200, badPortBody⟩) = false :=
  ⟨(C7_supervisor_failures ⟨404, []⟩).1 (by decide),
   (C7_supervisor_failures ⟨200, badPortBody⟩).2 ⟨"a", "h", "99999", false, "u", "p", "3"⟩
     rfl rfl⟩

/-- C8 counterexample: a 200 response whose body holds exactly host,
port (parsing as u16), username and password is rejected - the derived
deserializer also requires the addon, ssl and protocol fields - so
resolution does not succeed with only those four fields. -/
theorem C8_counterexample :
    getStr fourFieldBody "host" = some "h"
    ∧ getStr fourFieldBody "port" = some "1883"
    ∧ parseU16 "1883" = some 1883
    ∧ getStr fourFieldBody "username" = some "u"
    ∧ getStr fourFieldBody "password" = some "p"
    ∧ resolveSupervisor ⟨200, fourFieldBody⟩ = Except.error ResolutionError.jsonError :=
  ⟨rfl, rfl, rfl, rfl, rfl, rfl⟩

/-- C8 amended: a 200 response whose body holds string fields addon,
host, port, username, password, protocol and boolean field ssl, with
port parsing as u16, resolves successfully to exactly host, port,
username and password; the values of addon, ssl and protocol and any
unknown fields are ignored. -/
theorem C8_amended_required_fields (body : JsonObj)
    (a hostV portV u pw pr : String) (sl : Bool) (n : Nat)
    (ha : getStr body "addon" = some a) (hh : getStr body "host" = some hostV)
    (hp : getStr body "port" = some portV) (hssl : getBool body "ssl" = some sl)
    (hu : getStr body "username" = some u) (hpw : getStr body "password" = some pw)
    (hpr : getStr body "protocol" = some pr) (hn : parseU16 portV = some n) :
    resolveSupervisor ⟨200, body⟩ = Except.ok (hostV, n, u, pw) := by
  simp [resolveSupervisor, deserializeMqttConfig, ha, hh, hp, hssl, hu, hpw, hpr, hn]

/-- C8 witness: a full supervisor body with an extra unknown field
resolves to its host, port, username and password. -/
theorem C8_witness :
    resolveSupervisor ⟨200, supervisorBody⟩
      = Except.ok ("172.30.32.1", 1883, "hass", "secret") :=
  C8_amended_required_fields supervisorBody "core_mosquitto" "172.30.32.1" "1883"
    "hass" "secret" "3.1.1" false 1883 rfl rfl rfl rfl rfl rfl rfl rfl

/-- C9 counterexample: a configuration object with every field except
uhppote_device_ip is rejected; adding the field makes it parse, and the
device is then addressed by that address, not by broadcast discovery. -/
theorem C9_counterexample :
    deserializeConfig cfgObjNoIp = none
    ∧ deserializeConfig cfgObjFull
        = some ⟨425043852, "192.168.1.50", "Office Door", 1, "uhppote",
                some "localhost", some 1883, some "user", some "pass", "uhppote"⟩
    ∧ (mkDevice ⟨425043852, "192.168.1.50", "Office Door", 1, "uhppote",
                some "localhost", some 1883, some "user", some "pass", "uhppote"⟩).address
        = some "192.168.1.50" :=
  ⟨rfl, rfl, rfl⟩

/-- C9 amended: the device network address field is required - a
configuration omitting it is rejected - and the bridge always addresses
the device by the configured network address, never by broadcast
discovery. -/
theorem C9_amended_ip_required :
    (∀ obj : JsonObj, getField obj "uhppote_device_ip" = none →
      deserializeConfig obj = none)
    ∧ (∀ c : Config, (mkDevice c).address = some c.uhppote_device_ip) := by
  constructor
  · intro obj hf
    have hstr : getStr obj "uhppote_device_ip" = none := by simp [getStr, hf]
    cases hid : getUInt obj "uhppote_device_id" 4294967296 with
    | none => simp [deserializeConfig, hid]
    | some v => simp [deserializeConfig, hid, hstr]
  · intro c
    rfl

/-- C9 witness: the concrete configuration object lacking
uhppote_device_ip is rejected. -/
theorem C9_witness : deserializeConfig cfgObjNoIp = none :=
  C9_amended_ip_required.1 cfgObjNoIp rfl

/-- C10: when HASS_TOKEN is set but SUPERVISOR_TOKEN is unset, the
credential phase panics while building the Authorization header and no
HTTP request is sent to the supervisor endpoint. -/
theorem C10_missing_supervisor_token (env : String → Option String) (resp : HttpResponse)
    (hh : (env "HASS_TOKEN").isSome = true) (hs : env "SUPERVISOR_TOKEN" = none) :
    credentialPhase env resp = ([], CredOutcome.panicked) := by
  cases he : env "HASS_TOKEN" with
  | none => rw [he] at hh; exact Bool.noConfusion hh
  | some tok => simp [credentialPhase, he, hs]

/-- C10 witness: the environment holding only HASS_TOKEN panics with no
HTTP request performed. -/
theorem C10_witness :
    credentialPhase envHassOnly ⟨200, []⟩ = ([], CredOutcome.panicked) :=
  C10_missing_supervisor_token envHassOnly ⟨200, []⟩ rfl rfl


end UhppoteMqtt
